import Mathlib

/-!
# Verification of the whisper-srt task orchestrator against its specification

Shallow embedding of the subtitle-generation service
(`whispersubtitle/api/worker.py`, `whispersubtitle/api/app.py`,
`whispersubtitle/core/generator.py`, `whispersubtitle/config/settings.py`,
`whispersubtitle/utils/obs_storage.py`).

Modelling conventions:
* The filesystem is a predicate `String → Bool` giving the set of existing
  regular files (`os.path.exists p and os.path.isfile p`).
* Every fallible downstream collaborator (network fetch, ffmpeg run, Whisper
  model load, transcription, OBS upload) is a field of an `Env` record
  returning `Except String _` (the error string is the Python exception's
  `str(e)`), or `Bool × String` for the OBS upload which never raises.
* Segment times are exact non-negative microsecond counts (`Nat`); this is the
  granularity at which Python's `datetime.timedelta` stores them.
* Celery semantics used by the embedding: `self.update_state(state, meta)`
  appends an observation to the run's trace; a task function that *returns*
  normally puts the Celery `AsyncResult` into state `SUCCESS` with the return
  value as `info`; only an uncaught exception produces Celery state `FAILURE`.
-/

set_option linter.unusedVariables false

namespace WhisperSrt

/-! ## Python string primitives used by the code -/

/-- Python `sep.join(parts)`. -/
def pyJoin (sep : String) : List String → String
  | [] => ""
  | [w] => w
  | w :: ws => w ++ sep ++ pyJoin sep ws

/-- Split a character list at every separator character (the separators are
dropped, empty pieces kept) — the semantics of Python `str.split(sep)`. -/
def splitPred (p : Char → Bool) : List Char → List (List Char)
  | [] => [[]]
  | a :: as =>
    if p a then [] :: splitPred p as
    else
      match splitPred p as with
      | [] => [[a]]
      | g :: gs => (a :: g) :: gs

/-- Python `s.split(c)` for a one-character separator. -/
def pySplitChar (c : Char) (s : String) : List String :=
  (splitPred (fun x => x = c) s.data).map String.mk

/-- Python `str.split()` (split on whitespace runs, dropping empty pieces). -/
def pySplit (s : String) : List String :=
  ((splitPred Char.isWhitespace s.data).map String.mk).filter (fun w => w ≠ "")

/-- Python `str.strip()`: drop leading and trailing whitespace. -/
def pyStrip (s : String) : String :=
  String.mk (((s.data.dropWhile Char.isWhitespace).reverse.dropWhile Char.isWhitespace).reverse)

/-- Python `str.lower()` (over the ASCII range the code cares about). -/
def pyToLower (s : String) : String :=
  String.mk (s.data.map Char.toLower)

/-- Python `s.endswith(suffix)`. -/
def pyEndsWith (s suffix : String) : Bool :=
  suffix.data.isSuffixOf s.data

/-- Python `os.path.basename` for `/`-separated paths. -/
def pyBasename (p : String) : String :=
  (pySplitChar '/' p).getLastD ""

/-- Python `s.split('.')[-1]`. -/
def lastDotSeg (s : String) : String :=
  (pySplitChar '.' s).getLastD ""

/-- Left-position of the last occurrence of a character in a list. -/
def lastIdxOf (c : Char) : List Char → Option Nat
  | [] => none
  | a :: as =>
    match lastIdxOf c as with
    | some i => some (i + 1)
    | none => if a = c then some 0 else none

/-- Whether some position in the half-open range `[a, b)` holds a character
other than `'.'` (the scan `os.path.splitext` performs over the basename). -/
def hasNonDotBetween (cs : List Char) (a b : Nat) : Bool :=
  ((cs.drop a).take (b - a)).any (fun c => c ≠ '.')

/-- The index at which `os.path.splitext` splits off the extension, if any:
the last `'.'`, provided it comes after the last `'/'` and the basename has a
non-dot character before it. -/
def splitextIdx (cs : List Char) : Option Nat :=
  match lastIdxOf '.' cs with
  | none => none
  | some d =>
    match lastIdxOf '/' cs with
    | some s =>
      if d ≤ s then none
      else if hasNonDotBetween cs (s + 1) d then some d else none
    | none =>
      if hasNonDotBetween cs 0 d then some d else none

/-- `os.path.splitext(p)[0]`. -/
def splitextStem (p : String) : String :=
  match splitextIdx p.data with
  | some d => String.mk (p.data.take d)
  | none => p

/-- Python `f"{n:02d}"` for a natural number. -/
def pad2 (n : Nat) : String :=
  if n < 10 then "0" ++ toString n else toString n

/-- Python `f"{n:03d}"` for a natural number. -/
def pad3 (n : Nat) : String :=
  if n < 10 then "00" ++ toString n
  else if n < 100 then "0" ++ toString n
  else toString n

/-- Python truthiness of an optional string (`None` and `""` are falsy). -/
def pyTruthy : Option String → Bool
  | none => false
  | some s => !s.isEmpty

/-! ## Configuration (`whispersubtitle/config/settings.py`)

The absolute `BASE_DIR` prefix is abstracted away: folders are modelled by
their distinct relative names, which is all the control flow depends on. -/

def UPLOAD_FOLDER : String := "uploads"

def RESULT_FOLDER : String := "results"

def VIDEOS_FOLDER : String := "videos"

def ALLOWED_EXTENSIONS : List String :=
  ["mp3", "wav", "ogg", "flac", "m4a", "mp4", "avi", "mov", "mkv", "webm", "flv", "wmv"]

/-- Video extensions, as listed inline at `worker.py` line 181. -/
def videoExtensions : List String :=
  ["mp4", "avi", "mov", "mkv", "webm", "flv", "wmv"]

/-! ## Task states (`worker.py` `TASK_STATUS`) -/

inductive TaskState where
  | PENDING | STARTED | DOWNLOADING | EXTRACTING | TRANSCRIBING
  | SUCCESS | FAILURE | RETRY | REVOKED
deriving DecidableEq, Repr

/-- The human-facing display label for each state (`worker.py` lines 44-54). -/
def TASK_STATUS : TaskState → String
  | .PENDING => "等待处理"
  | .STARTED => "处理中"
  | .DOWNLOADING => "下载中"
  | .EXTRACTING => "提取音频中"
  | .TRANSCRIBING => "生成字幕中"
  | .SUCCESS => "处理完成"
  | .FAILURE => "处理失败"
  | .RETRY => "重试中"
  | .REVOKED => "任务取消"

/-! ## Devices and the external collaborators -/

inductive Device where
  | cpu | mps | cuda
deriving DecidableEq, Repr

/-- A transcription segment as produced by the inference collaborator:
start/end times in microseconds and the raw text. -/
structure Segment where
  startUs : Nat
  endUs : Nat
  text : String
deriving DecidableEq, Repr

/-- The unreliable external world the orchestrator talks to.  A Whisper model
handle is determined by the `(model name, device)` pair it was loaded with,
which is exactly what the code threads through. -/
structure Env where
  /-- `os.path.exists p and os.path.isfile p`. -/
  isFile : String → Bool
  /-- outcome of the streaming HTTP fetch of a URL (`requests.get` + write). -/
  fetch : String → Except String Unit
  /-- outcome of the ffmpeg run of `extract_audio` on a media path. -/
  extractAudio : String → Except String Unit
  /-- outcome of `whisper.load_model(name, device)`. -/
  loadModel : String → Device → Except String Unit
  /-- outcome of `model.transcribe(audio, language?)` for the model loaded
  from `(name, device)`. -/
  transcribe : String → Device → String → Option String → Except String (List Segment)
  /-- `obs_storage.upload_file`: `(success flag, url-or-error)`; never raises
  (`obs_storage.py` catches every exception). -/
  upload : String → Bool × String
  /-- `torch.backends.mps.is_available()`. -/
  mpsAvailable : Bool
  /-- `torch.cuda.is_available()`. -/
  cudaAvailable : Bool

/-! ## Subtitle generator core (`core/generator.py`) -/

/-- `format_timestamp(seconds, format_type)` (`generator.py` lines 12-26).
`timedelta.seconds` is the number of seconds *within the day* (whole days are
discarded) and `timedelta.microseconds` the sub-second remainder. -/
def format_timestamp (micros : Nat) (format_type : String) : Except String String :=
  let tdSeconds := micros / 1000000 % 86400
  let hours := tdSeconds / 3600
  let remainder := tdSeconds % 3600
  let minutes := remainder / 60
  let seconds := remainder % 60
  let milliseconds := micros % 1000000 / 1000
  if format_type = "srt" then
    .ok (pad2 hours ++ ":" ++ pad2 minutes ++ ":" ++ pad2 seconds ++ "," ++ pad3 milliseconds)
  else if format_type = "vtt" then
    .ok (pad2 hours ++ ":" ++ pad2 minutes ++ ":" ++ pad2 seconds ++ "." ++ pad3 milliseconds)
  else
    .error ("Unsupported format type: " ++ format_type)

/-- One step of the greedy line-packing loop (`generator.py` lines 168-176).
The accumulator is `(lines, current_line)`. -/
def wrapStep (n : Nat) (acc : List String × String) (w : String) : List String × String :=
  if acc.2.length + w.length + 1 > n ∧ acc.2 ≠ "" then (acc.1 ++ [acc.2], w)
  else if acc.2 ≠ "" then (acc.1, acc.2 ++ " " ++ w) else (acc.1, w)

/-- The full wrapping loop over the words of a segment text
(`generator.py` lines 164-179), including the final flush. -/
def wrapLines (n : Nat) (words : List String) : List String :=
  let fin := words.foldl (wrapStep n) ([], "")
  if fin.2 ≠ "" then fin.1 ++ [fin.2] else fin.1

/-- The same loop tracking each line as the list of words put on it instead of
the joined string; used to state that no word is ever split or reordered. -/
def wrapStepG (n : Nat) (acc : List (List String) × List String) (w : String) :
    List (List String) × List String :=
  if (pyJoin " " acc.2).length + w.length + 1 > n ∧ acc.2 ≠ [] then (acc.1 ++ [acc.2], [w])
  else if acc.2 ≠ [] then (acc.1, acc.2 ++ [w]) else (acc.1, [w])

/-- Word-level view of `wrapLines`: the consecutive groups of original words
placed on each produced line. -/
def wrapGroups (n : Nat) (words : List String) : List (List String) :=
  let fin := words.foldl (wrapStepG n) ([], [])
  if fin.2 ≠ [] then fin.1 ++ [fin.2] else fin.1

/-- Per-segment text processing (`generator.py` lines 159-181): strip, then
wrap when a non-zero max line length is given and the text exceeds it. -/
def processText (max_line_length : Option Nat) (raw : String) : String :=
  let text := pyStrip raw
  match max_line_length with
  | some n =>
    if n ≠ 0 ∧ text.length > n then pyJoin "\n" (wrapLines n (pySplit text))
    else text
  | none => text

/-- One subtitle entry as written by the loop body
(`generator.py` lines 156-194). -/
def renderSeg (format_type : String) (max_line_length : Option Nat) (i : Nat)
    (s : Segment) : Except String String :=
  match format_timestamp s.startUs format_type, format_timestamp s.endUs format_type with
  | .ok st, .ok en =>
    let text := processText max_line_length s.text
    if format_type = "srt" then
      .ok (toString i ++ "\n" ++ st ++ " --> " ++ en ++ "\n" ++ text ++ "\n\n")
    else if format_type = "vtt" then
      .ok (st ++ " --> " ++ en ++ "\n" ++ text ++ "\n\n")
    else
      .ok ""
  | .error e, _ => .error e
  | _, .error e => .error e

/-- The subtitle-entry loop, `enumerate(segments, start=1)`. -/
def renderBlocks (format_type : String) (max_line_length : Option Nat) :
    Nat → List Segment → Except String String
  | _, [] => .ok ""
  | i, s :: rest =>
    match renderSeg format_type max_line_length i s with
    | .error e => .error e
    | .ok b =>
      match renderBlocks format_type max_line_length (i + 1) rest with
      | .error e => .error e
      | .ok r => .ok (b ++ r)

/-- The full file content produced by the segment-writing phase of
`generate_subtitles` (header for VTT, then the blocks). -/
def renderSubtitles (format_type : String) (max_line_length : Option Nat)
    (segs : List Segment) : Except String String :=
  let header := if format_type = "vtt" then "WEBVTT\n\n" else ""
  match renderBlocks format_type max_line_length 1 segs with
  | .ok body => .ok (header ++ body)
  | .error e => .error e

/-- Result of a `generate_subtitles` call: the outcome (output path plus the
content written to it), and the devices on which a model load and a
transcription were attempted, in order. -/
structure GenOut where
  result : Except String (String × String)
  loads : List Device
  transcribes : List Device
deriving Repr

/-- The transcribe-and-render phase of `generate_subtitles`
(`generator.py` lines 134-197) once a model has been loaded on device `d`. -/
def genAfterLoad (env : Env) (audio_file output_file format_type model_name : String)
    (language : Option String) (max_line_length : Option Nat) (d : Device) :
    Except String (String × String) :=
  match env.transcribe model_name d audio_file language with
  | .error e => .error e
  | .ok segs =>
    match renderSubtitles format_type max_line_length segs with
    | .error e => .error e
    | .ok content => .ok (output_file, content)

/-- `generate_subtitles` (`generator.py` lines 106-197) as called by the
worker (explicit `output_file`, no pre-existing transcription result).  Only
`whisper.load_model` is wrapped in try/except with a CPU fallback
(lines 127-132); `model.transcribe` is not retried. -/
def generate_subtitles (env : Env) (audio_file output_file format_type model_name : String)
    (language : Option String) (max_line_length : Option Nat) (device : Device) : GenOut :=
  match env.loadModel model_name device with
  | .ok _ =>
    { result := genAfterLoad env audio_file output_file format_type model_name language
        max_line_length device
      loads := [device], transcribes := [device] }
  | .error _ =>
    match env.loadModel model_name .cpu with
    | .ok _ =>
      { result := genAfterLoad env audio_file output_file format_type model_name language
          max_line_length .cpu
        loads := [device, .cpu], transcribes := [.cpu] }
    | .error e =>
      { result := .error e, loads := [device, .cpu], transcribes := [] }

/-! ## Worker task (`api/worker.py`) -/

/-- The options dictionary after the merge with `default_options`
(`worker.py` lines 91-103); the API handler always supplies every key. -/
structure Options where
  model : String := "base"
  language : Option String := none
  format : String := "srt"
  max_line_length : Option Nat := none
  cpu : Bool := false
  no_mps : Bool := false
  media_key : Option String := none
deriving DecidableEq, Repr

/-- The dictionary returned by `generate_subtitle_task`; an absent key is
`none` (`worker.py` lines 249-268). -/
structure TaskResult where
  status : String
  progress : Option Nat := none
  task_id : Option String := none
  subtitle_file : Option String := none
  subtitle_url : Option String := none
  obs_url : Option String := none
  error : Option String := none
deriving DecidableEq, Repr

/-- The durable JSON record written to `RESULT_FOLDER/{task_id}.json` on the
success path (`worker.py` lines 232-247). -/
structure TaskRecord where
  task_id : String
  status : String
  subtitle_file : String
  subtitle_content : String
  media_url : Option String
  options : Options
  obs_url : Option String := none
deriving DecidableEq, Repr

/-- Everything observable about one execution of the Celery task: the
`update_state` calls in order (state, meta progress), the returned dictionary,
the media/audio files written, the subtitle artifact written (path, content)
and the JSON record written, if any. -/
structure RunOutput where
  trace : List (TaskState × Nat)
  ret : TaskResult
  mediaWrites : List String
  subtitleWrite : Option (String × String)
  record : Option TaskRecord
deriving Repr

/-- `download_media` (`worker.py` lines 56-82): filename from the URL's last
dot-segment (default `mp4` when unrecognised), then the streaming fetch. -/
def download_media (env : Env) (url task_id : String) : Except String String :=
  let ext := pyToLower (lastDotSeg url)
  let ext := if ext ∈ ALLOWED_EXTENSIONS then ext else "mp4"
  let filepath := UPLOAD_FOLDER ++ "/" ++ task_id ++ "." ++ ext
  match env.fetch url with
  | .ok _ => .ok filepath
  | .error e => .error e

/-- The four base paths probed for a `media_key`
(`worker.py` lines 120-125). -/
def localPaths (key : String) : List String :=
  [UPLOAD_FOLDER ++ "/" ++ key,
   UPLOAD_FOLDER ++ "/" ++ key ++ ".mp4",
   VIDEOS_FOLDER ++ "/" ++ key,
   VIDEOS_FOLDER ++ "/" ++ key ++ ".mp4"]

/-- The extension list of the inner search loop (`worker.py` line 136). -/
def extSearchList : List String :=
  ["mp4", "avi", "mov", "mkv", "webm", "flv", "wmv", "mp3", "wav", "ogg", "flac", "m4a"]

/-- Extension variants tried for one base path (`worker.py` lines 136-141):
each extension not already carried by the base, substituted for the base's
`os.path.splitext` extension. -/
def extCandidates (base : String) : List String :=
  extSearchList.filterMap (fun e =>
    if pyEndsWith base ("." ++ e) then none else some (splitextStem base ++ "." ++ e))

/-- Probe one base path: exact match first, then the extension variants. -/
def resolveBase (isF : String → Bool) (base : String) : Option String :=
  if isF base then some base else (extCandidates base).find? isF

/-- The whole local-key lookup (`worker.py` lines 127-144): first hit over the
base paths in order wins. -/
def resolveMediaKey (isF : String → Bool) (key : String) : Option String :=
  (localPaths key).findSome? (resolveBase isF)

/-- Device selection (`worker.py` lines 163-178).  The `torch.device("mps")`
construction never fails, so the try/except there is dead; MPS available but
disabled falls through to CPU without consulting CUDA (the `elif`). -/
def selectDevice (cpuOpt noMps mpsAvail cudaAvail : Bool) : Device :=
  if cpuOpt then .cpu
  else if mpsAvail && !noMps then .mps
  else if cudaAvail then .cuda
  else .cpu

/-- `media_path.split('.')[-1].lower() in [...]` (`worker.py` line 181). -/
def isVideoPath (p : String) : Bool :=
  pyToLower (lastDotSeg p) ∈ videoExtensions

/-- The failure dictionary built by the `except` clause
(`worker.py` lines 263-268). -/
def failRet (e : String) : TaskResult :=
  { status := TASK_STATUS .FAILURE, error := some e }

/-- Media-resolution phase of the task body (`worker.py` lines 111-161):
extra trace entries, files written, and the local media path or the error. -/
def resolvePhase (env : Env) (task_id : String) (media_url : Option String)
    (options : Options) : List (TaskState × Nat) × List String × Except String String :=
  if pyTruthy options.media_key then
    match resolveMediaKey env.isFile (options.media_key.getD "") with
    | some p => ([], [], .ok p)
    | none =>
      ([], [], .error ("找不到与media_key: " ++ options.media_key.getD "" ++ "匹配的本地媒体文件"))
  else
    match media_url with
    | none => ([], [], .error "未提供media_key或有效的media_url")
    | some u =>
      if pyStrip u = "" then ([], [], .error "未提供media_key或有效的media_url")
      else
        match download_media env u task_id with
        | .ok p => ([(.DOWNLOADING, 10)], [p], .ok p)
        | .error e => ([(.DOWNLOADING, 10)], [], .error e)

/-- Audio-extraction phase (`worker.py` lines 180-190): video files go through
`extract_audio` (default mp3 output next to the video), audio files pass
through; the `TRANSCRIBING` update follows on success
(`worker.py` lines 193-196). -/
def pipelinePhase (env : Env) (media_path : String) :
    List (TaskState × Nat) × List String × Except String String :=
  if isVideoPath media_path then
    match env.extractAudio media_path with
    | .ok _ =>
      let a := splitextStem media_path ++ ".mp3"
      ([(.EXTRACTING, 30), (.TRANSCRIBING, 50)], [a], .ok a)
    | .error e => ([(.EXTRACTING, 30)], [], .error e)
  else
    ([(.TRANSCRIBING, 50)], [], .ok media_path)

/-- `generate_subtitle_task` (`worker.py` lines 84-268).  The whole body after
the `STARTED` update sits in one try/except whose handler *returns* a failure
dictionary — it never re-raises, so the Celery state of a completed execution
is always `SUCCESS` with this return value as `info`. -/
def generate_subtitle_task (env : Env) (useObs : Bool) (task_id : String)
    (media_url : Option String) (options : Options) : RunOutput :=
  let tr0 : List (TaskState × Nat) := [(.STARTED, 0)]
  let rp := resolvePhase env task_id media_url options
  let tr1 := rp.1
  let w1 := rp.2.1
  match rp.2.2 with
  | .error e =>
    { trace := tr0 ++ tr1, ret := failRet e, mediaWrites := w1,
      subtitleWrite := none, record := none }
  | .ok media_path =>
    let device := selectDevice options.cpu options.no_mps env.mpsAvailable env.cudaAvailable
    let pp := pipelinePhase env media_path
    let tr2 := pp.1
    let w2 := pp.2.1
    match pp.2.2 with
    | .error e =>
      { trace := tr0 ++ tr1 ++ tr2, ret := failRet e, mediaWrites := w1 ++ w2,
        subtitleWrite := none, record := none }
    | .ok audio_path =>
      let output_file := RESULT_FOLDER ++ "/" ++ task_id ++ "." ++ options.format
      let g := generate_subtitles env audio_path output_file options.format options.model
        options.language options.max_line_length device
      match g.result with
      | .error e =>
        { trace := tr0 ++ tr1 ++ tr2, ret := failRet e, mediaWrites := w1 ++ w2,
          subtitleWrite := none, record := none }
      | .ok (subtitle_file, content) =>
        let base := pyBasename subtitle_file
        let subtitle_url := "/results/" ++ base
        let obsRes := if useObs then env.upload subtitle_file else (false, "")
        let obs_url : Option String :=
          if obsRes.1 && !obsRes.2.isEmpty then some obsRes.2 else none
        let theRecord : TaskRecord :=
          { task_id := task_id, status := "SUCCESS", subtitle_file := base,
            subtitle_content := content, media_url := media_url, options := options,
            obs_url := obs_url }
        { trace := tr0 ++ tr1 ++ tr2,
          ret := { status := TASK_STATUS .SUCCESS, progress := some 100,
                   task_id := some task_id, subtitle_file := some base,
                   subtitle_url := some subtitle_url, obs_url := obs_url, error := none },
          mediaWrites := w1 ++ w2,
          subtitleWrite := some (subtitle_file, content),
          record := some theRecord }

/-! ## API endpoints (`api/app.py`) -/

/-- `SubtitleRequest` (`app.py` lines 49-57).  `media_url` stands for the
pydantic-validated `HttpUrl` (so a present value is a non-empty string). -/
structure SubtitleRequest where
  media_url : Option String := none
  media_key : Option String := none
  model : String := "base"
  language : Option String := none
  format : String := "srt"
  max_line_length : Option Nat := none
  cpu : Bool := false
  no_mps : Bool := false
deriving DecidableEq, Repr

/-- The options dictionary built by `create_subtitle_task`
(`app.py` lines 175-182), before the optional `media_key` insertion. -/
def optionsOf (req : SubtitleRequest) : Options :=
  { model := req.model, language := req.language, format := req.format,
    max_line_length := req.max_line_length, cpu := req.cpu, no_mps := req.no_mps,
    media_key := none }

/-- `create_subtitle_task` (`app.py` lines 156-193): either an HTTP error
`(status code, detail)` raised before anything is dispatched, or the
`(media_url, options)` pair handed to `generate_subtitle_task.delay`. -/
def create_subtitle_task (req : SubtitleRequest) :
    Except (Nat × String) (Option String × Options) :=
  if !pyTruthy req.media_url && !pyTruthy req.media_key then
    .error (400, "必须提供media_url或media_key参数之一")
  else if pyTruthy req.media_key then
    .ok (none, { optionsOf req with media_key := req.media_key })
  else
    .ok (req.media_url, optionsOf req)

/-- What the Celery `AsyncResult` for a task id can look like: not yet picked
up, mid-run after an `update_state`, finished by a normal return (Celery state
`SUCCESS`, `info` = the returned dictionary), or finished by an uncaught
exception (Celery state `FAILURE`) — the last is unreachable for this worker,
whose body never re-raises. -/
inductive CeleryView where
  | pending
  | running (st : TaskState) (progress : Nat)
  | done (ret : TaskResult)
  | crashed (err : String)
deriving Repr

/-- The response model of the status endpoint (`app.py` lines 65-70). -/
structure StatusResponse where
  task_id : String
  status : String
  progress : Nat
  result : Option TaskResult := none
  error : Option String := none
deriving DecidableEq, Repr

/-- The states handled by the in-flight branch (`app.py` line 218). -/
def inflightStates : List TaskState :=
  [.STARTED, .DOWNLOADING, .EXTRACTING, .TRANSCRIBING]

/-- `get_subtitle_task` (`app.py` lines 195-230).  States outside the
`elif` chain (RETRY, REVOKED) fall through with the empty status and
progress 0, exactly as the Python dictionary does. -/
def get_subtitle_task (task_id : String) : CeleryView → StatusResponse
  | .pending => { task_id := task_id, status := TASK_STATUS .PENDING, progress := 0 }
  | .crashed e =>
    { task_id := task_id, status := TASK_STATUS .FAILURE, progress := 0, error := some e }
  | .running st p =>
    if st ∈ inflightStates then
      { task_id := task_id, status := TASK_STATUS st, progress := p }
    else
      { task_id := task_id, status := "", progress := 0 }
  | .done r =>
    { task_id := task_id, status := TASK_STATUS .SUCCESS, progress := 100, result := some r }

/-! ## Task registry (`app.py` lines 261-318)

The two directories are modelled by their lists of filenames (directory
entries are distinct; removal removes every occurrence, matching set
semantics).  `os.remove` is modelled as succeeding. -/

/-- The extension sweep of `delete_task` over the results directory
(`app.py` line 299). -/
def RESULT_DELETE_EXTS : List String :=
  ["json", "srt", "vtt", "mp3", "wav", "ogg", "flac", "m4a"]

/-- One iteration of a deletion loop (`app.py` lines 299-316): remove
`{task_id}.{ext}` if present and report it. -/
def removeStep (tid : String) (fd : List String × List String) (ext : String) :
    List String × List String :=
  let name := tid ++ "." ++ ext
  if name ∈ fd.1 then (fd.1.filter (fun f => f ≠ name), fd.2 ++ [name]) else fd

/-- `delete_task` (`app.py` lines 283-318): 404 when no record exists,
otherwise the reported deletions and the two directories afterwards. -/
def delete_task (resultFiles uploadFiles : List String) (tid : String) :
    Except (Nat × String) (List String × List String × List String) :=
  if (tid ++ ".json") ∈ resultFiles then
    let rd := RESULT_DELETE_EXTS.foldl (removeStep tid) (resultFiles, [])
    let ud := ALLOWED_EXTENSIONS.foldl (removeStep tid) (uploadFiles, rd.2)
    .ok (ud.2, rd.1, ud.1)
  else
    .error (404, "任务不存在")

/-- The task ids `list_tasks` (`app.py` lines 261-281) exposes: the
`os.path.splitext` stem of every `.json` file in the results directory. -/
def listTaskIds (resultFiles : List String) : List String :=
  (resultFiles.filter (fun f => pyEndsWith f ".json")).map splitextStem

/-! ## Concrete environments and inputs used by witnesses and counterexamples -/

/-- The fully-defaulted options dictionary. -/
def defaultOptions : Options := {}

/-- A demo transcription result. -/
def segsDemo : List Segment := [⟨0, 1000000, "hello"⟩]

/-- A world in which the network is down and everything else works. -/
def envDownFail : Env :=
  { isFile := fun _ => false
    fetch := fun _ => .error "Connection refused"
    extractAudio := fun _ => .ok ()
    loadModel := fun _ _ => .ok ()
    transcribe := fun _ _ _ _ => .ok segsDemo
    upload := fun _ => (false, "")
    mpsAvailable := false
    cudaAvailable := false }

/-! ## C1 — failure handling at the orchestrator boundary -/

/-- C1 (code bug): on an exception from a downstream call (here: the download
raises `Connection refused`) the worker catches it and *returns* the failure
dictionary (`worker.py` lines 263-268) instead of raising or moving the task
to the `FAILURE` state.  A Celery task that returns normally is recorded as
`SUCCESS` with the returned dictionary as `info`, so the subsequent status
query (`app.py` lines 195-230) takes the `SUCCESS` branch: it reports the
success label with `progress = 100` and `error = None`, burying the failure
inside `result` — the endpoint's own `FAILURE` branch (lines 214-216), which
would have populated `error`, is unreachable.  The claim's required
observable (`status = FAILURE`, `error` populated) therefore never happens,
even though the exception is indeed caught and never re-raised. -/
theorem C1_failure_status_query :
    (generate_subtitle_task envDownFail false "tid-1"
        (some "http://example.com/video.mp4") defaultOptions).ret.status
        = TASK_STATUS .FAILURE
    ∧ (generate_subtitle_task envDownFail false "tid-1"
        (some "http://example.com/video.mp4") defaultOptions).ret.error
        = some "Connection refused"
    ∧ (get_subtitle_task "tid-1"
        (.done (generate_subtitle_task envDownFail false "tid-1"
          (some "http://example.com/video.mp4") defaultOptions).ret)).status
        = TASK_STATUS .SUCCESS
    ∧ (get_subtitle_task "tid-1"
        (.done (generate_subtitle_task envDownFail false "tid-1"
          (some "http://example.com/video.mp4") defaultOptions).ret)).progress = 100
    ∧ (get_subtitle_task "tid-1"
        (.done (generate_subtitle_task envDownFail false "tid-1"
          (some "http://example.com/video.mp4") defaultOptions).ret)).error = none
    ∧ TASK_STATUS TaskState.SUCCESS ≠ TASK_STATUS TaskState.FAILURE := by
  refine ⟨rfl, rfl, rfl, rfl, rfl, by decide⟩

/-! ## C2 — submission validation -/

/-- A submission carrying both a media URL and a local media key. -/
def reqBoth : SubtitleRequest :=
  { media_url := some "http://example.com/v.mp4", media_key := some "vid-1" }

/-- C2 (counterexample): a submission with *both* a non-empty `media_url` and
a non-empty `media_key` is not rejected — `create_subtitle_task` only raises
400 when both are missing (`app.py` lines 170-172) and otherwise dispatches,
letting the key win (lines 184-191). -/
theorem C2_both_set_accepted :
    create_subtitle_task reqBoth
      = .ok (none, { optionsOf reqBoth with media_key := some "vid-1" })
    ∧ ∀ err, create_subtitle_task reqBoth ≠ .error err := by
  refine ⟨rfl, fun err h => ?_⟩
  rw [show create_subtitle_task reqBoth
      = .ok (none, { optionsOf reqBoth with media_key := some "vid-1" }) from rfl] at h
  exact absurd h (by simp)

/-- C2 (amended): a submission with both references absent (no URL and no
non-empty key) is rejected with the 400 `InvalidRequestError` before anything
is dispatched (so before any state transition); when a non-empty key is
present the submission is accepted with the key taking precedence (the URL is
dropped); otherwise a present URL is accepted. -/
theorem C2_validation (req : SubtitleRequest) :
    (pyTruthy req.media_url = false → pyTruthy req.media_key = false →
      create_subtitle_task req = .error (400, "必须提供media_url或media_key参数之一"))
    ∧ (pyTruthy req.media_key = true →
      create_subtitle_task req = .ok (none, { optionsOf req with media_key := req.media_key }))
    ∧ (pyTruthy req.media_key = false → pyTruthy req.media_url = true →
      create_subtitle_task req = .ok (req.media_url, optionsOf req)) := by
  unfold create_subtitle_task
  refine ⟨fun h1 h2 => ?_, fun h => ?_, fun h1 h2 => ?_⟩
  · simp [h1, h2]
  · simp [h]
  · simp [h1, h2]

/-- C2 witness: the both-absent submission is concretely rejected with 400. -/
theorem C2_validation_witness :
    create_subtitle_task {} = .error (400, "必须提供media_url或media_key参数之一") :=
  (C2_validation {}).1 rfl rfl

/-! ## C5 — progress checkpoints and monotonicity -/

/-- The fixed progress checkpoint tied to each state, as the worker reports
it (`worker.py` lines 106-261: 0 at STARTED, 10 at DOWNLOADING, 30 at
EXTRACTING, 50 at TRANSCRIBING, 100 at SUCCESS). -/
def progressCheckpoint : TaskState → Nat
  | .PENDING => 0
  | .STARTED => 0
  | .DOWNLOADING => 10
  | .EXTRACTING => 30
  | .TRANSCRIBING => 50
  | .SUCCESS => 100
  | _ => 0

/-- The resolve phase either emits no state update or the single
`(DOWNLOADING, 10)` update. -/
lemma resolvePhase_trace (env : Env) (tid : String) (url : Option String)
    (opts : Options) :
    (resolvePhase env tid url opts).1 = [] ∨
      (resolvePhase env tid url opts).1 = [(.DOWNLOADING, 10)] := by
  unfold resolvePhase
  repeat' split
  all_goals first
    | exact Or.inl rfl
    | exact Or.inr rfl

/-- The pipeline phase emits one of three checkpoint update sequences. -/
lemma pipelinePhase_trace (env : Env) (p : String) :
    (pipelinePhase env p).1 = [(.EXTRACTING, 30), (.TRANSCRIBING, 50)] ∨
      (pipelinePhase env p).1 = [(.EXTRACTING, 30)] ∨
      (pipelinePhase env p).1 = [(.TRANSCRIBING, 50)] := by
  unfold pipelinePhase
  repeat' split
  all_goals first
    | exact Or.inl rfl
    | exact Or.inr (Or.inl rfl)
    | exact Or.inr (Or.inr rfl)

/-- The execution trace is `STARTED` followed by the resolve-phase updates,
possibly followed by the pipeline-phase updates for the resolved path. -/
lemma trace_decompose (env : Env) (useObs : Bool) (tid : String) (url : Option String)
    (opts : Options) :
    (generate_subtitle_task env useObs tid url opts).trace
        = [(.STARTED, 0)] ++ (resolvePhase env tid url opts).1 ∨
      ∃ mp, (generate_subtitle_task env useObs tid url opts).trace
        = [(.STARTED, 0)] ++ (resolvePhase env tid url opts).1 ++ (pipelinePhase env mp).1 := by
  unfold generate_subtitle_task
  dsimp only
  repeat' split
  all_goals first
    | exact Or.inl rfl
    | exact Or.inr ⟨_, rfl⟩

/-- Every execution's `update_state` trace is one of the eight monotone
checkpoint sequences. -/
lemma trace_shape (env : Env) (useObs : Bool) (tid : String) (url : Option String)
    (opts : Options) :
    (generate_subtitle_task env useObs tid url opts).trace ∈
      [[((TaskState.STARTED : TaskState), (0 : Nat))],
       [(.STARTED, 0), (.DOWNLOADING, 10)],
       [(.STARTED, 0), (.TRANSCRIBING, 50)],
       [(.STARTED, 0), (.EXTRACTING, 30)],
       [(.STARTED, 0), (.EXTRACTING, 30), (.TRANSCRIBING, 50)],
       [(.STARTED, 0), (.DOWNLOADING, 10), (.TRANSCRIBING, 50)],
       [(.STARTED, 0), (.DOWNLOADING, 10), (.EXTRACTING, 30)],
       [(.STARTED, 0), (.DOWNLOADING, 10), (.EXTRACTING, 30), (.TRANSCRIBING, 50)]] := by
  rcases trace_decompose env useObs tid url opts with h | ⟨mp, h⟩ <;> rw [h]
  · rcases resolvePhase_trace env tid url opts with h1 | h1 <;> rw [h1] <;> simp
  · rcases resolvePhase_trace env tid url opts with h1 | h1 <;>
      rcases pipelinePhase_trace env mp with h2 | h2 | h2 <;>
        rw [h1, h2] <;> simp

/-- C5: the progress observable through the status query follows the fixed
state-tied checkpoints, is non-decreasing over the task's observable lifetime
(PENDING, then each `update_state`, then the terminal view), and is pinned to
100 once the terminal `SUCCESS` view is reached. -/
theorem C5_progress_monotone (env : Env) (useObs : Bool) (tid : String)
    (url : Option String) (opts : Options) :
    List.Chain' (· ≤ ·)
      ((get_subtitle_task tid .pending).progress ::
        ((generate_subtitle_task env useObs tid url opts).trace.map
            (fun sp => (get_subtitle_task tid (.running sp.1 sp.2)).progress)
          ++ [(get_subtitle_task tid
                (.done (generate_subtitle_task env useObs tid url opts).ret)).progress]))
    ∧ (∀ sp ∈ (generate_subtitle_task env useObs tid url opts).trace,
        sp.2 = progressCheckpoint sp.1)
    ∧ (get_subtitle_task tid
        (.done (generate_subtitle_task env useObs tid url opts).ret)).progress = 100
    ∧ (get_subtitle_task tid .pending).progress = 0 := by
  have h := trace_shape env useObs tid url opts
  simp only [List.mem_cons, List.not_mem_nil, or_false] at h
  refine ⟨?_, ?_, rfl, rfl⟩ <;>
    rcases h with h | h | h | h | h | h | h | h <;>
      rw [h] <;> simp [get_subtitle_task, inflightStates, progressCheckpoint]

/-! ## C3 — local media key resolution -/

/-- The ordered candidate list the code actually probes: for each base path in
`localPaths` order (uploads before videos), the exact path first, then the
extension variants. -/
def codeCandidates (key : String) : List String :=
  (localPaths key).flatMap (fun b => b :: extCandidates b)

/-- Candidate list as the claim literally describes it: per directory in
priority order, an exact match of the key first, then `key + "." + extension`
combinations.  (The code instead *replaces* the key's `os.path.splitext`
extension, which differs for keys that carry one.) -/
def claimCandidates (key : String) : List String :=
  ((UPLOAD_FOLDER ++ "/" ++ key) ::
      extSearchList.map (fun e => UPLOAD_FOLDER ++ "/" ++ key ++ "." ++ e))
    ++ ((VIDEOS_FOLDER ++ "/" ++ key) ::
      extSearchList.map (fun e => VIDEOS_FOLDER ++ "/" ++ key ++ "." ++ e))

/-- Probing one base is finding the first file among the exact path and its
extension variants. -/
lemma resolveBase_eq_find (isF : String → Bool) (b : String) :
    resolveBase isF b = (b :: extCandidates b).find? isF := by
  unfold resolveBase
  cases hb : isF b <;> simp [List.find?, hb]

/-- The nested search loop equals a first-match scan of the flattened
candidate list. -/
lemma resolveMediaKey_eq_find (isF : String → Bool) (key : String) :
    resolveMediaKey isF key = (codeCandidates key).find? isF := by
  unfold resolveMediaKey codeCandidates
  generalize localPaths key = l
  induction l with
  | nil => rfl
  | cons b bs ih =>
    rw [List.findSome?_cons, resolveBase_eq_find, List.flatMap_cons, List.find?_append, ih]
    cases (b :: extCandidates b).find? isF <;> simp [Option.or]

/-- In the local-key branch the resolve phase emits no state update and
produces exactly the loop's result (or the `FileNotFoundError` message). -/
lemma resolvePhase_key (env : Env) (tid : String) (url : Option String)
    (opts : Options) (key : String) (hk : opts.media_key = some key) (hne : key ≠ "") :
    resolvePhase env tid url opts =
      ([], [],
        match resolveMediaKey env.isFile key with
        | some p => .ok p
        | none => .error ("找不到与media_key: " ++ key ++ "匹配的本地媒体文件")) := by
  have ht : pyTruthy opts.media_key = true := by
    rw [hk]
    have hf : key.isEmpty = false := by
      cases h : key.isEmpty
      · rfl
      · exact absurd ((String.isEmpty_iff key).mp h) hne
    show (!key.isEmpty) = true
    rw [hf]
    rfl
  unfold resolvePhase
  rw [ht, hk]
  simp only [Option.getD_some, if_true]
  cases resolveMediaKey env.isFile key <;> rfl

/-- A resolve-phase error short-circuits the run into the failure return. -/
lemma run_resolve_error (env : Env) (useObs : Bool) (tid : String)
    (url : Option String) (opts : Options) (e : String)
    (h : (resolvePhase env tid url opts).2.2 = .error e) :
    generate_subtitle_task env useObs tid url opts =
      { trace := [(.STARTED, 0)] ++ (resolvePhase env tid url opts).1,
        ret := failRet e,
        mediaWrites := (resolvePhase env tid url opts).2.1,
        subtitleWrite := none, record := none } := by
  unfold generate_subtitle_task
  dsimp only
  rw [h]

/-- C3 (amended): resolution of a local media key scans a fixed ordered
candidate list — for each directory in priority order (uploads before
videos), the exact key path first, then the variants obtained by substituting
each allow-listed extension for the key's `os.path.splitext` extension
(plain `key + "." + ext` only when the key carries no extension) — and the
first existing regular file wins; if no candidate exists the task fails with
the `FileNotFoundError`-derived message; and this branch never passes through
the `DOWNLOADING` state. -/
theorem C3_local_key_resolution (env : Env) (useObs : Bool) (tid : String)
    (url : Option String) (opts : Options) (key : String)
    (hk : opts.media_key = some key) (hne : key ≠ "") :
    resolveMediaKey env.isFile key = (codeCandidates key).find? env.isFile
    ∧ (codeCandidates key).head? = some (UPLOAD_FOLDER ++ "/" ++ key)
    ∧ (resolveMediaKey env.isFile key = none →
        (generate_subtitle_task env useObs tid url opts).ret.status = TASK_STATUS .FAILURE
        ∧ (generate_subtitle_task env useObs tid url opts).ret.error
            = some ("找不到与media_key: " ++ key ++ "匹配的本地媒体文件"))
    ∧ (∀ p, (TaskState.DOWNLOADING, p) ∉ (generate_subtitle_task env useObs tid url opts).trace) := by
  refine ⟨resolveMediaKey_eq_find env.isFile key, by simp [codeCandidates, localPaths], ?_, ?_⟩
  · intro hres
    have h22 : (resolvePhase env tid url opts).2.2
        = .error ("找不到与media_key: " ++ key ++ "匹配的本地媒体文件") := by
      rw [resolvePhase_key env tid url opts key hk hne, hres]
    rw [run_resolve_error env useObs tid url opts _ h22]
    exact ⟨rfl, rfl⟩
  · intro p
    have h1 : (resolvePhase env tid url opts).1 = [] := by
      rw [resolvePhase_key env tid url opts key hk hne]
    rcases trace_decompose env useObs tid url opts with h | ⟨mp, h⟩ <;> rw [h, h1]
    · simp
    · rcases pipelinePhase_trace env mp with h2 | h2 | h2 <;> rw [h2] <;> simp

/-- A world containing exactly the regular file `uploads/a.mp4`, in which
every later pipeline stage succeeds. -/
def envC3 : Env :=
  { isFile := fun p => p == "uploads/a.mp4"
    fetch := fun _ => .error "no network"
    extractAudio := fun _ => .ok ()
    loadModel := fun _ _ => .ok ()
    transcribe := fun _ _ _ _ => .ok segsDemo
    upload := fun _ => (false, "")
    mpsAvailable := false
    cudaAvailable := false }

/-- Options submitting the dotted local key `a.avi`. -/
def optsC3 : Options := { media_key := some "a.avi" }

/-- C3 (counterexample): for the key `a.avi` with only `uploads/a.mp4`
present, *no* candidate of the claim's literal search (exact key, then
`key + "." + ext`) exists — the claim therefore mandates a
`MediaNotFoundError` failure — yet the code's `os.path.splitext` substitution
finds `uploads/a.mp4` and the task completes as SUCCESS. -/
theorem C3_dotted_key_counterexample :
    (claimCandidates "a.avi").find? envC3.isFile = none
    ∧ resolveMediaKey envC3.isFile "a.avi" = some "uploads/a.mp4"
    ∧ (generate_subtitle_task envC3 false "t3" none optsC3).ret.status
        = TASK_STATUS .SUCCESS := by
  refine ⟨rfl, rfl, rfl⟩

/-- C3 witness: the amended theorem applied to the concrete world `envC3`. -/
theorem C3_local_key_resolution_witness :
    resolveMediaKey envC3.isFile "a.avi" = (codeCandidates "a.avi").find? envC3.isFile
    ∧ (codeCandidates "a.avi").head? = some (UPLOAD_FOLDER ++ "/" ++ "a.avi")
    ∧ (resolveMediaKey envC3.isFile "a.avi" = none →
        (generate_subtitle_task envC3 false "t3" none optsC3).ret.status = TASK_STATUS .FAILURE
        ∧ (generate_subtitle_task envC3 false "t3" none optsC3).ret.error
            = some ("找不到与media_key: " ++ "a.avi" ++ "匹配的本地媒体文件"))
    ∧ (∀ p, (TaskState.DOWNLOADING, p) ∉ (generate_subtitle_task envC3 false "t3" none optsC3).trace) :=
  C3_local_key_resolution envC3 false "t3" none optsC3 "a.avi" rfl (by decide)

/-! ## C4 — CPU fallback in the transcription pipeline -/

/-- A world whose model loads always succeed but whose transcription crashes
on every non-CPU device and succeeds on the CPU. -/
def envC4 : Env :=
  { isFile := fun _ => false
    fetch := fun _ => .ok ()
    extractAudio := fun _ => .ok ()
    loadModel := fun _ _ => .ok ()
    transcribe := fun _ d _ _ =>
      if d = .cpu then .ok segsDemo else .error "gpu transcription crashed"
    upload := fun _ => (false, "")
    mpsAvailable := true
    cudaAvailable := false }

/-- C4 (counterexample): transcription fails on the selected MPS accelerator
while the same transcription on CPU would succeed, yet `generate_subtitles`
attempts transcription only once (on MPS) and propagates the error — the
try/except with CPU fallback (`generator.py` lines 127-132) wraps only
`whisper.load_model`, not `model.transcribe`. -/
theorem C4_no_transcribe_retry :
    (generate_subtitles envC4 "a.mp3" "results/t.srt" "srt" "base" none none .mps).result
      = .error "gpu transcription crashed"
    ∧ (generate_subtitles envC4 "a.mp3" "results/t.srt" "srt" "base" none none .mps).transcribes
      = [.mps]
    ∧ envC4.transcribe "base" .cpu "a.mp3" none = .ok segsDemo := by
  refine ⟨rfl, rfl, rfl⟩

/-- C4 (amended): it is the *model load* that is retried exactly once, forced
onto the CPU, when it fails on the selected accelerator — so an accelerator
initialization failure alone never aborts the run; if the CPU load also fails
that error propagates fatally with no further retry; transcription itself is
attempted at most once (on the device whose load succeeded) and a
transcription failure propagates immediately with no retry. -/
theorem C4_cpu_fallback (env : Env) (audio out fmt name : String)
    (lang : Option String) (maxLen : Option Nat) (dev : Device) :
    ((env.loadModel name dev).isOk = true →
      (generate_subtitles env audio out fmt name lang maxLen dev).loads = [dev]
      ∧ (generate_subtitles env audio out fmt name lang maxLen dev).transcribes = [dev]
      ∧ ∀ e, env.transcribe name dev audio lang = .error e →
          (generate_subtitles env audio out fmt name lang maxLen dev).result = .error e)
    ∧ ((env.loadModel name dev).isOk = false →
      (generate_subtitles env audio out fmt name lang maxLen dev).loads = [dev, .cpu]
      ∧ ((env.loadModel name .cpu).isOk = true →
          (generate_subtitles env audio out fmt name lang maxLen dev).transcribes = [.cpu]
          ∧ ∀ e, env.transcribe name .cpu audio lang = .error e →
              (generate_subtitles env audio out fmt name lang maxLen dev).result = .error e)
      ∧ ∀ e, env.loadModel name .cpu = .error e →
          (generate_subtitles env audio out fmt name lang maxLen dev).result = .error e
          ∧ (generate_subtitles env audio out fmt name lang maxLen dev).transcribes = []) := by
  unfold generate_subtitles genAfterLoad
  cases h1 : env.loadModel name dev with
  | ok _ =>
    refine ⟨fun _ => ⟨rfl, rfl, fun e he => ?_⟩, fun hf => by simp [Except.isOk, Except.toBool] at hf⟩
    rw [he]
  | error e1 =>
    refine ⟨fun ho => by simp [Except.isOk, Except.toBool] at ho, fun _ => ?_⟩
    cases h2 : env.loadModel name .cpu with
    | ok _ =>
      refine ⟨rfl, fun _ => ⟨rfl, fun e he => ?_⟩, fun e he => by simp [h2] at he⟩
      rw [he]
    | error e2 =>
      refine ⟨rfl, fun ho => by simp [Except.isOk, Except.toBool] at ho, fun e he => ?_⟩
      have h3 : e2 = e := by
        rw [Except.error.injEq] at he
        exact he
      exact ⟨by rw [h3], rfl⟩

/-- A world whose model load fails on every non-CPU device. -/
def envC4load : Env :=
  { envC4 with loadModel := fun _ d => if d = .cpu then .ok () else .error "mps init failed" }

/-- C4 witness: with a failing MPS load and a working CPU, the load is
concretely retried once on CPU and transcription runs there. -/
theorem C4_cpu_fallback_witness :
    (generate_subtitles envC4load "a.mp3" "results/t.srt" "srt" "base" none none .mps).loads
      = [.mps, .cpu]
    ∧ (generate_subtitles envC4load "a.mp3" "results/t.srt" "srt" "base" none none .mps).transcribes
      = [.cpu] := by
  have h := (C4_cpu_fallback envC4load "a.mp3" "results/t.srt" "srt" "base" none none .mps).2 rfl
  exact ⟨h.1, (h.2.1 rfl).1⟩

/-! ## Branch lemmas for the worker run -/

/-- The `obs_url` value attached to result and record
(`worker.py` lines 216-226 and 242-244): present only when OBS storage is in
use, the upload reported success and the returned URL is non-empty. -/
def obsUrlOf (useObs : Bool) (env : Env) (subtitle_file : String) : Option String :=
  let obsRes := if useObs then env.upload subtitle_file else (false, "")
  if obsRes.1 && !obsRes.2.isEmpty then some obsRes.2 else none

/-- A pipeline-phase error short-circuits the run into the failure return. -/
lemma run_pipeline_error (env : Env) (useObs : Bool) (tid : String)
    (url : Option String) (opts : Options) (mp e : String)
    (h1 : (resolvePhase env tid url opts).2.2 = .ok mp)
    (h2 : (pipelinePhase env mp).2.2 = .error e) :
    generate_subtitle_task env useObs tid url opts =
      { trace := [(.STARTED, 0)] ++ (resolvePhase env tid url opts).1 ++ (pipelinePhase env mp).1,
        ret := failRet e,
        mediaWrites := (resolvePhase env tid url opts).2.1 ++ (pipelinePhase env mp).2.1,
        subtitleWrite := none, record := none } := by
  unfold generate_subtitle_task
  dsimp only
  rw [h1]
  dsimp only
  rw [h2]

/-- A `generate_subtitles` error short-circuits the run into the failure
return. -/
lemma run_gen_error (env : Env) (useObs : Bool) (tid : String)
    (url : Option String) (opts : Options) (mp ap e : String)
    (h1 : (resolvePhase env tid url opts).2.2 = .ok mp)
    (h2 : (pipelinePhase env mp).2.2 = .ok ap)
    (h3 : (generate_subtitles env ap (RESULT_FOLDER ++ "/" ++ tid ++ "." ++ opts.format)
        opts.format opts.model opts.language opts.max_line_length
        (selectDevice opts.cpu opts.no_mps env.mpsAvailable env.cudaAvailable)).result
        = .error e) :
    generate_subtitle_task env useObs tid url opts =
      { trace := [(.STARTED, 0)] ++ (resolvePhase env tid url opts).1 ++ (pipelinePhase env mp).1,
        ret := failRet e,
        mediaWrites := (resolvePhase env tid url opts).2.1 ++ (pipelinePhase env mp).2.1,
        subtitleWrite := none, record := none } := by
  unfold generate_subtitle_task
  dsimp only
  rw [h1]
  dsimp only
  rw [h2]
  dsimp only
  rw [h3]

/-- The success branch in full (`worker.py` lines 215-261). -/
lemma run_success (env : Env) (useObs : Bool) (tid : String)
    (url : Option String) (opts : Options) (mp ap sf content : String)
    (h1 : (resolvePhase env tid url opts).2.2 = .ok mp)
    (h2 : (pipelinePhase env mp).2.2 = .ok ap)
    (h3 : (generate_subtitles env ap (RESULT_FOLDER ++ "/" ++ tid ++ "." ++ opts.format)
        opts.format opts.model opts.language opts.max_line_length
        (selectDevice opts.cpu opts.no_mps env.mpsAvailable env.cudaAvailable)).result
        = .ok (sf, content)) :
    generate_subtitle_task env useObs tid url opts =
      { trace := [(.STARTED, 0)] ++ (resolvePhase env tid url opts).1 ++ (pipelinePhase env mp).1,
        ret := { status := TASK_STATUS .SUCCESS, progress := some 100,
                 task_id := some tid, subtitle_file := some (pyBasename sf),
                 subtitle_url := some ("/results/" ++ pyBasename sf),
                 obs_url := obsUrlOf useObs env sf, error := none },
        mediaWrites := (resolvePhase env tid url opts).2.1 ++ (pipelinePhase env mp).2.1,
        subtitleWrite := some (sf, content),
        record := some { task_id := tid, status := "SUCCESS", subtitle_file := pyBasename sf,
                         subtitle_content := content, media_url := url, options := opts,
                         obs_url := obsUrlOf useObs env sf } } := by
  unfold generate_subtitle_task obsUrlOf
  dsimp only
  rw [h1]
  dsimp only
  rw [h2]
  dsimp only
  rw [h3]

/-- Any run either fails (failure dictionary, no subtitle write, no record)
or succeeds (success dictionary, record with status `SUCCESS`). -/
lemma run_dichotomy (env : Env) (useObs : Bool) (tid : String)
    (url : Option String) (opts : Options) :
    ((generate_subtitle_task env useObs tid url opts).record = none
      ∧ (generate_subtitle_task env useObs tid url opts).subtitleWrite = none
      ∧ ∃ e, (generate_subtitle_task env useObs tid url opts).ret = failRet e)
    ∨ ((generate_subtitle_task env useObs tid url opts).ret.status = TASK_STATUS .SUCCESS
      ∧ (generate_subtitle_task env useObs tid url opts).ret.error = none
      ∧ ∃ r, (generate_subtitle_task env useObs tid url opts).record = some r
          ∧ r.status = "SUCCESS"
          ∧ r.obs_url = (generate_subtitle_task env useObs tid url opts).ret.obs_url) := by
  cases h1 : (resolvePhase env tid url opts).2.2 with
  | error e =>
    rw [run_resolve_error env useObs tid url opts e h1]
    exact Or.inl ⟨rfl, rfl, e, rfl⟩
  | ok mp =>
    cases h2 : (pipelinePhase env mp).2.2 with
    | error e =>
      rw [run_pipeline_error env useObs tid url opts mp e h1 h2]
      exact Or.inl ⟨rfl, rfl, e, rfl⟩
    | ok ap =>
      cases h3 : (generate_subtitles env ap (RESULT_FOLDER ++ "/" ++ tid ++ "." ++ opts.format)
          opts.format opts.model opts.language opts.max_line_length
          (selectDevice opts.cpu opts.no_mps env.mpsAvailable env.cudaAvailable)).result with
      | error e =>
        rw [run_gen_error env useObs tid url opts mp ap e h1 h2 h3]
        exact Or.inl ⟨rfl, rfl, e, rfl⟩
      | ok pc =>
        rw [run_success env useObs tid url opts mp ap pc.1 pc.2 h1 h2 (by rw [h3])]
        exact Or.inr ⟨rfl, rfl, _, rfl, rfl, rfl⟩

/-! ## C7 — remote-storage failures never fail the task -/

/-- C7: when every OBS upload fails, an execution with remote storage enabled
is indistinguishable from one with it disabled — in particular a run whose
transcription succeeded still completes as SUCCESS, its result and its
persisted record carry no remote URL, and the published subtitle URL is the
local one. -/
theorem C7_upload_failure_not_fatal (env : Env) (tid : String) (url : Option String)
    (opts : Options) (hup : ∀ p, (env.upload p).1 = false) :
    generate_subtitle_task env true tid url opts = generate_subtitle_task env false tid url opts
    ∧ (∀ r, (generate_subtitle_task env true tid url opts).record = some r →
        r.obs_url = none ∧ r.status = "SUCCESS"
        ∧ (generate_subtitle_task env true tid url opts).ret.status = TASK_STATUS .SUCCESS
        ∧ (generate_subtitle_task env true tid url opts).ret.obs_url = none
        ∧ (generate_subtitle_task env true tid url opts).ret.subtitle_url
            = some ("/results/" ++ r.subtitle_file)) := by
  have hobs : ∀ u sf, obsUrlOf u env sf = none := by
    intro u sf
    unfold obsUrlOf
    cases u <;> simp [hup sf]
  cases h1 : (resolvePhase env tid url opts).2.2 with
  | error e =>
    rw [run_resolve_error env true tid url opts e h1,
      run_resolve_error env false tid url opts e h1]
    exact ⟨rfl, fun r hr => by simp at hr⟩
  | ok mp =>
    cases h2 : (pipelinePhase env mp).2.2 with
    | error e =>
      rw [run_pipeline_error env true tid url opts mp e h1 h2,
        run_pipeline_error env false tid url opts mp e h1 h2]
      exact ⟨rfl, fun r hr => by simp at hr⟩
    | ok ap =>
      cases h3 : (generate_subtitles env ap (RESULT_FOLDER ++ "/" ++ tid ++ "." ++ opts.format)
          opts.format opts.model opts.language opts.max_line_length
          (selectDevice opts.cpu opts.no_mps env.mpsAvailable env.cudaAvailable)).result with
      | error e =>
        rw [run_gen_error env true tid url opts mp ap e h1 h2 h3,
          run_gen_error env false tid url opts mp ap e h1 h2 h3]
        exact ⟨rfl, fun r hr => by simp at hr⟩
      | ok pc =>
        rw [run_success env true tid url opts mp ap pc.1 pc.2 h1 h2 (by rw [h3]),
          run_success env false tid url opts mp ap pc.1 pc.2 h1 h2 (by rw [h3]),
          hobs true pc.1, hobs false pc.1]
        refine ⟨rfl, fun r hr => ?_⟩
        rw [Option.some_inj] at hr
        subst hr
        exact ⟨rfl, rfl, rfl, rfl, rfl⟩

/-- A world in which everything works except the OBS upload. -/
def envC7 : Env :=
  { envC3 with isFile := fun p => p == "uploads/a7.wav",
               upload := fun _ => (false, "上传文件到OBS失败: timeout") }

/-- C7 witness: a concrete successful run with a failing upload — SUCCESS
status, no remote URL anywhere, local subtitle URL published. -/
theorem C7_upload_failure_not_fatal_witness :
    generate_subtitle_task envC7 true "t7" none { media_key := some "a7" }
      = generate_subtitle_task envC7 false "t7" none { media_key := some "a7" }
    ∧ ∀ r, (generate_subtitle_task envC7 true "t7" none { media_key := some "a7" }).record
        = some r →
        r.obs_url = none ∧ r.status = "SUCCESS"
        ∧ (generate_subtitle_task envC7 true "t7" none { media_key := some "a7" }).ret.status
            = TASK_STATUS .SUCCESS
        ∧ (generate_subtitle_task envC7 true "t7" none { media_key := some "a7" }).ret.obs_url
            = none
        ∧ (generate_subtitle_task envC7 true "t7" none { media_key := some "a7" }).ret.subtitle_url
            = some ("/results/" ++ r.subtitle_file) :=
  C7_upload_failure_not_fatal envC7 "t7" none { media_key := some "a7" } (fun _ => rfl)

/-! ## C10 — the durable record exists only for successful runs -/

/-- One submission as handed to the worker. -/
structure RunInput where
  env : Env
  useObs : Bool
  task_id : String
  media_url : Option String
  options : Options

/-- The execution of one submission. -/
def runOf (i : RunInput) : RunOutput :=
  generate_subtitle_task i.env i.useObs i.task_id i.media_url i.options

/-- A persisted record always carries status `SUCCESS`, and its run returned
the success dictionary. -/
lemma record_implies_success (env : Env) (useObs : Bool) (tid : String)
    (url : Option String) (opts : Options) (r : TaskRecord)
    (h : (generate_subtitle_task env useObs tid url opts).record = some r) :
    r.status = "SUCCESS"
    ∧ (generate_subtitle_task env useObs tid url opts).ret.status = TASK_STATUS .SUCCESS := by
  rcases run_dichotomy env useObs tid url opts with ⟨hn, _, _⟩ | ⟨hs, _, r', hr', hst, _⟩
  · rw [hn] at h
    cases h
  · rw [hr', Option.some_inj] at h
    subst h
    exact ⟨hst, hs⟩

/-- C10: a run that ends in failure writes neither the JSON task record nor a
subtitle artifact (and its returned dictionary carries an error); the record
is written exactly on the success path and always with status `SUCCESS`; and
hence a registry populated by any number of runs only ever lists SUCCESS
records. -/
theorem C10_record_only_on_success (env : Env) (useObs : Bool) (tid : String)
    (url : Option String) (opts : Options) :
    ((generate_subtitle_task env useObs tid url opts).ret.status = TASK_STATUS .FAILURE →
      (generate_subtitle_task env useObs tid url opts).record = none
      ∧ (generate_subtitle_task env useObs tid url opts).subtitleWrite = none
      ∧ (generate_subtitle_task env useObs tid url opts).ret.error.isSome = true)
    ∧ (∀ r, (generate_subtitle_task env useObs tid url opts).record = some r →
        r.status = "SUCCESS"
        ∧ (generate_subtitle_task env useObs tid url opts).ret.status = TASK_STATUS .SUCCESS)
    ∧ ∀ (runs : List RunInput),
        ∀ r ∈ (runs.map (fun i => (runOf i).record)).filterMap id, r.status = "SUCCESS" := by
  refine ⟨?_, fun r h => record_implies_success env useObs tid url opts r h, ?_⟩
  · intro hf
    rcases run_dichotomy env useObs tid url opts with ⟨hn, hw, e, hret⟩ | ⟨hs, _, _⟩
    · exact ⟨hn, hw, by rw [hret]; rfl⟩
    · exact absurd (hs.symm.trans hf) (by decide)
  · intro runs r hr
    simp only [List.mem_filterMap, List.mem_map, id] at hr
    obtain ⟨o, ⟨i, hi, ho⟩, hor⟩ := hr
    subst ho
    exact (record_implies_success i.env i.useObs i.task_id i.media_url i.options r hor).1

/-- C10 witness: the concrete failed download run writes no record, no
subtitle artifact, and returns an error. -/
theorem C10_record_only_on_success_witness :
    (generate_subtitle_task envDownFail false "t10"
        (some "http://example.com/a.mp4") defaultOptions).record = none
    ∧ (generate_subtitle_task envDownFail false "t10"
        (some "http://example.com/a.mp4") defaultOptions).subtitleWrite = none
    ∧ (generate_subtitle_task envDownFail false "t10"
        (some "http://example.com/a.mp4") defaultOptions).ret.error.isSome = true :=
  (C10_record_only_on_success envDownFail false "t10"
    (some "http://example.com/a.mp4") defaultOptions).1 rfl

/-! ## C8 — rendered subtitle shape -/

/-- The timestamp the claim describes: the time decomposed into hours,
minutes, seconds and milliseconds, with no day truncation. -/
def claimTimestamp (sep : String) (micros : Nat) : String :=
  let totalSec := micros / 1000000
  pad2 (totalSec / 3600) ++ ":" ++ pad2 (totalSec % 3600 / 60) ++ ":" ++ pad2 (totalSec % 60)
    ++ sep ++ pad3 (micros % 1000000 / 1000)

/-- Sequential concatenation of the written pieces. -/
def strConcat : List String → String
  | [] => ""
  | s :: rest => s ++ strConcat rest

/-- One SRT block of the claimed shape, for 1-based index `p.1`. -/
def srtBlockSpec (maxLen : Option Nat) (p : Nat × Segment) : String :=
  toString p.1 ++ "\n" ++ claimTimestamp "," (p.2.startUs % 86400000000) ++ " --> "
    ++ claimTimestamp "," (p.2.endUs % 86400000000) ++ "\n"
    ++ processText maxLen p.2.text ++ "\n\n"

/-- One VTT block of the claimed shape (no index line, dot separator). -/
def vttBlockSpec (maxLen : Option Nat) (s : Segment) : String :=
  claimTimestamp "." (s.startUs % 86400000000) ++ " --> "
    ++ claimTimestamp "." (s.endUs % 86400000000) ++ "\n"
    ++ processText maxLen s.text ++ "\n\n"

/-- The claimed SRT file shape: consecutive 1-based indexed blocks. -/
def srtShape (maxLen : Option Nat) (segs : List Segment) : String :=
  strConcat ((segs.enumFrom 1).map (srtBlockSpec maxLen))

/-- The claimed VTT file shape: `WEBVTT` header, blank line, then blocks. -/
def vttShape (maxLen : Option Nat) (segs : List Segment) : String :=
  "WEBVTT\n\n" ++ strConcat (segs.map (vttBlockSpec maxLen))

/-- `format_timestamp` in SRT mode renders the time modulo one day. -/
lemma format_timestamp_srt (us : Nat) :
    format_timestamp us "srt" = .ok (claimTimestamp "," (us % 86400000000)) := by
  have h1 : us % 86400000000 / 1000000 = us / 1000000 % 86400 := by omega
  have h2 : us % 86400000000 % 1000000 = us % 1000000 := by omega
  have h3 : us / 1000000 % 86400 % 3600 % 60 = us / 1000000 % 86400 % 60 :=
    Nat.mod_mod_of_dvd _ (by norm_num)
  unfold format_timestamp claimTimestamp
  dsimp only
  rw [if_pos rfl, h1, h2, h3]

/-- `format_timestamp` in VTT mode renders the time modulo one day. -/
lemma format_timestamp_vtt (us : Nat) :
    format_timestamp us "vtt" = .ok (claimTimestamp "." (us % 86400000000)) := by
  have h1 : us % 86400000000 / 1000000 = us / 1000000 % 86400 := by omega
  have h2 : us % 86400000000 % 1000000 = us % 1000000 := by omega
  have h3 : us / 1000000 % 86400 % 3600 % 60 = us / 1000000 % 86400 % 60 :=
    Nat.mod_mod_of_dvd _ (by norm_num)
  unfold format_timestamp claimTimestamp
  dsimp only
  rw [if_neg (by decide), if_pos rfl, h1, h2, h3]

/-- One rendered SRT entry has exactly the claimed block shape. -/
lemma renderSeg_srt (maxLen : Option Nat) (i : Nat) (s : Segment) :
    renderSeg "srt" maxLen i s = .ok (srtBlockSpec maxLen (i, s)) := by
  unfold renderSeg
  rw [format_timestamp_srt, format_timestamp_srt]
  dsimp only
  rw [if_pos rfl]
  rfl

/-- One rendered VTT entry has exactly the claimed block shape. -/
lemma renderSeg_vtt (maxLen : Option Nat) (i : Nat) (s : Segment) :
    renderSeg "vtt" maxLen i s = .ok (vttBlockSpec maxLen s) := by
  unfold renderSeg
  rw [format_timestamp_vtt, format_timestamp_vtt]
  dsimp only
  rw [if_neg (by decide), if_pos rfl]
  rfl

/-- The SRT entry loop writes the blocks with consecutive indices from `n`. -/
lemma renderBlocks_srt (maxLen : Option Nat) (segs : List Segment) : ∀ n,
    renderBlocks "srt" maxLen n segs
      = .ok (strConcat ((segs.enumFrom n).map (srtBlockSpec maxLen))) := by
  induction segs with
  | nil => intro n; rfl
  | cons s rest ih =>
    intro n
    unfold renderBlocks
    rw [renderSeg_srt, ih (n + 1)]
    rfl

/-- The VTT entry loop writes the index-free blocks. -/
lemma renderBlocks_vtt (maxLen : Option Nat) (segs : List Segment) : ∀ n,
    renderBlocks "vtt" maxLen n segs
      = .ok (strConcat (segs.map (vttBlockSpec maxLen))) := by
  induction segs with
  | nil => intro n; rfl
  | cons s rest ih =>
    intro n
    unfold renderBlocks
    rw [renderSeg_vtt, ih (n + 1)]
    rfl

/-- C8 (amended): for every segment list and optional wrap limit, the
rendered SRT file is exactly the claimed sequence of blocks
`index\nHH:MM:SS,mmm --> HH:MM:SS,mmm\ntext\n\n` with consecutive 1-based
indices and comma millisecond separator, and the rendered VTT file is exactly
`WEBVTT\n\n` followed by the index-free blocks with dot separator — except
that each timestamp renders the segment time *modulo 24 hours* (the
`timedelta.seconds` field discards whole days) rather than the full time. -/
theorem C8_subtitle_shapes (maxLen : Option Nat) (segs : List Segment) :
    renderSubtitles "srt" maxLen segs = .ok (srtShape maxLen segs)
    ∧ renderSubtitles "vtt" maxLen segs = .ok (vttShape maxLen segs)
    ∧ (∀ us, format_timestamp us "srt" = .ok (claimTimestamp "," (us % 86400000000))
        ∧ format_timestamp us "vtt" = .ok (claimTimestamp "." (us % 86400000000))) := by
  refine ⟨?_, ?_, fun us => ⟨format_timestamp_srt us, format_timestamp_vtt us⟩⟩
  · unfold renderSubtitles srtShape
    rw [renderBlocks_srt]
    dsimp only
    rw [if_neg (by decide)]
    rw [Except.ok.injEq]
    rfl
  · unfold renderSubtitles vttShape
    rw [renderBlocks_vtt maxLen segs 1]
    dsimp only
    rw [if_pos rfl]

/-- The 25-hour segment. -/
def segC8 : Segment := ⟨90000000000, 90000000000, "hi"⟩

/-- C8 (counterexample): at 25 hours the rendered timestamp drops the whole
day — `01:00:00,000` is written where the claim's hour/minute/second/ms
decomposition of the segment time reads `25:00:00,000`. -/
theorem C8_day_wrap_counterexample :
    format_timestamp 90000000000 "srt" = .ok "01:00:00,000"
    ∧ claimTimestamp "," 90000000000 = "25:00:00,000"
    ∧ ("01:00:00,000" : String) ≠ "25:00:00,000"
    ∧ renderSubtitles "srt" none [segC8]
        = .ok "1\n01:00:00,000 --> 01:00:00,000\nhi\n\n" := by
  refine ⟨rfl, rfl, by decide, rfl⟩

/-! ## C9 — greedy line wrapping -/

lemma pyJoin_cons_cons (sep a b : String) (t : List String) :
    pyJoin sep (a :: b :: t) = a ++ sep ++ pyJoin sep (b :: t) := rfl

lemma pyJoin_append_singleton (sep w : String) (g : List String) (hg : g ≠ []) :
    pyJoin sep (g ++ [w]) = pyJoin sep g ++ sep ++ w := by
  induction g with
  | nil => exact absurd rfl hg
  | cons x t ih =>
    cases t with
    | nil => rfl
    | cons y t' =>
      show x ++ sep ++ pyJoin sep ((y :: t') ++ [w]) = pyJoin sep (x :: y :: t') ++ sep ++ w
      rw [ih (by simp), pyJoin_cons_cons]
      simp [String.append_assoc]

lemma pyJoin_sp_ne_empty (g : List String) (hne : g ≠ []) (h : ∀ x ∈ g, x ≠ "") :
    pyJoin " " g ≠ "" := by
  match g with
  | [x] => exact h x (by simp)
  | x :: y :: t =>
    intro hc
    have hlen := congrArg String.length hc
    rw [pyJoin_cons_cons] at hlen
    simp [String.length_append] at hlen
    exact absurd hlen.1.2 (by decide)

/-- Step lemmas for the string-level loop. -/
lemma wrapStep_flush (n : Nat) (lines : List String) (cur w : String)
    (h : cur.length + w.length + 1 > n ∧ cur ≠ "") :
    wrapStep n (lines, cur) w = (lines ++ [cur], w) := by
  unfold wrapStep
  rw [if_pos h]

lemma wrapStep_app (n : Nat) (lines : List String) (cur w : String)
    (h1 : ¬(cur.length + w.length + 1 > n ∧ cur ≠ "")) (h2 : cur ≠ "") :
    wrapStep n (lines, cur) w = (lines, cur ++ " " ++ w) := by
  unfold wrapStep
  rw [if_neg h1, if_pos h2]

lemma wrapStep_empty (n : Nat) (lines : List String) (w : String) :
    wrapStep n (lines, "") w = (lines, w) := by
  unfold wrapStep
  rw [if_neg (by simp), if_neg (by simp)]

/-- Step lemmas for the word-group-level loop. -/
lemma wrapStepG_flush (n : Nat) (gs : List (List String)) (cur : List String) (w : String)
    (h : (pyJoin " " cur).length + w.length + 1 > n ∧ cur ≠ []) :
    wrapStepG n (gs, cur) w = (gs ++ [cur], [w]) := by
  unfold wrapStepG
  rw [if_pos h]

lemma wrapStepG_app (n : Nat) (gs : List (List String)) (cur : List String) (w : String)
    (h1 : ¬((pyJoin " " cur).length + w.length + 1 > n ∧ cur ≠ [])) (h2 : cur ≠ []) :
    wrapStepG n (gs, cur) w = (gs, cur ++ [w]) := by
  unfold wrapStepG
  rw [if_neg h1, if_pos h2]

lemma wrapStepG_empty (n : Nat) (gs : List (List String)) (w : String) :
    wrapStepG n (gs, []) w = (gs, [w]) := by
  unfold wrapStepG
  rw [if_neg (by simp), if_neg (by simp)]

/-- The string-level loop is the image of the word-group-level loop under
`pyJoin " "`, and the running line's words stay non-empty. -/
lemma wrap_fold_corr (n : Nat) (ws : List String) (hws : ∀ w ∈ ws, w ≠ "") :
    ∀ (gs : List (List String)) (curG : List String), (∀ x ∈ curG, x ≠ "") →
      (List.foldl (wrapStep n) (gs.map (pyJoin " "), pyJoin " " curG) ws).1
          = (List.foldl (wrapStepG n) (gs, curG) ws).1.map (pyJoin " ")
      ∧ (List.foldl (wrapStep n) (gs.map (pyJoin " "), pyJoin " " curG) ws).2
          = pyJoin " " (List.foldl (wrapStepG n) (gs, curG) ws).2
      ∧ (∀ x ∈ (List.foldl (wrapStepG n) (gs, curG) ws).2, x ≠ "") := by
  induction ws with
  | nil => exact fun gs curG hcur => ⟨rfl, rfl, hcur⟩
  | cons w ws ih =>
    intro gs curG hcur
    have hw : w ≠ "" := hws w (by simp)
    have hws' : ∀ x ∈ ws, x ≠ "" := fun x hx => hws x (by simp [hx])
    rw [List.foldl_cons, List.foldl_cons]
    rcases List.eq_nil_or_concat curG with hG | _
    case inl =>
      subst hG
      rw [show pyJoin " " [] = "" from rfl, wrapStep_empty, wrapStepG_empty,
        show w = pyJoin " " [w] from rfl]
      exact ih hws' gs [w] (by simpa using hw)
    case inr =>
      have hGne : curG ≠ [] := by
        rename_i hx
        obtain ⟨t, x, rfl⟩ := hx
        simp
      have hjne : pyJoin " " curG ≠ "" := pyJoin_sp_ne_empty curG hGne hcur
      by_cases hlen : (pyJoin " " curG).length + w.length + 1 > n
      · rw [wrapStep_flush n _ _ _ ⟨hlen, hjne⟩, wrapStepG_flush n _ _ _ ⟨hlen, hGne⟩,
          show (gs.map (pyJoin " ")) ++ [pyJoin " " curG] = (gs ++ [curG]).map (pyJoin " ") from
            by simp, show w = pyJoin " " [w] from rfl]
        exact ih hws' (gs ++ [curG]) [w] (by simpa using hw)
      · rw [wrapStep_app n _ _ _ (by simp [hlen]) hjne, wrapStepG_app n _ _ _ (by simp [hlen]) hGne,
          show pyJoin " " curG ++ " " ++ w = pyJoin " " (curG ++ [w]) from
            (pyJoin_append_singleton " " w curG hGne).symm]
        refine ih hws' gs (curG ++ [w]) ?_
        intro x hx
        rcases List.mem_append.mp hx with h | h
        · exact hcur x h
        · rw [List.mem_singleton.mp h]
          exact hw

/-- The produced lines are exactly the space-joins of the word groups. -/
lemma wrapLines_eq_groups (n : Nat) (ws : List String) (hws : ∀ w ∈ ws, w ≠ "") :
    wrapLines n ws = (wrapGroups n ws).map (pyJoin " ") := by
  unfold wrapLines wrapGroups
  dsimp only
  obtain ⟨h1, h2, h3⟩ := wrap_fold_corr n ws hws [] [] (by simp)
  rw [show (([] : List String), ("" : String))
      = (([] : List (List String)).map (pyJoin " "), pyJoin " " []) from rfl]
  rw [h1, h2]
  by_cases hfin : (List.foldl (wrapStepG n) ([], []) ws).2 = []
  · rw [hfin, show pyJoin " " ([] : List String) = "" from rfl]
    simp
  · rw [if_pos (pyJoin_sp_ne_empty _ hfin h3), if_pos hfin]
    simp

/-- The groups partition the original word list in order: no word is ever
split, dropped, duplicated or reordered. -/
lemma wrapGroups_fold_join (n : Nat) (ws : List String) :
    ∀ (gs : List (List String)) (curG : List String),
      (List.foldl (wrapStepG n) (gs, curG) ws).1.flatten
          ++ (List.foldl (wrapStepG n) (gs, curG) ws).2
        = gs.flatten ++ curG ++ ws := by
  induction ws with
  | nil => intro gs curG; simp
  | cons w ws ih =>
    intro gs curG
    rw [List.foldl_cons]
    rcases List.eq_nil_or_concat curG with hG | hx
    · subst hG
      rw [wrapStepG_empty, ih gs [w]]
      simp
    · have hGne : curG ≠ [] := by
        obtain ⟨t, x, rfl⟩ := hx
        simp
      by_cases hlen : (pyJoin " " curG).length + w.length + 1 > n
      · rw [wrapStepG_flush n _ _ _ ⟨hlen, hGne⟩, ih (gs ++ [curG]) [w]]
        simp
      · rw [wrapStepG_app n _ _ _ (by simp [hlen]) hGne, ih gs (curG ++ [w])]
        simp

lemma wrapGroups_join (n : Nat) (ws : List String) : (wrapGroups n ws).flatten = ws := by
  unfold wrapGroups
  have h := wrapGroups_fold_join n ws [] []
  simp only [List.flatten_nil, List.nil_append] at h
  by_cases hfin : (List.foldl (wrapStepG n) ([], []) ws).2 = []
  · rw [if_neg (by simp [hfin])]
    rw [hfin] at h
    simpa using h
  · rw [if_pos hfin]
    simpa using h

/-- A well-formed produced group: non-empty, and within the limit unless it
is a single word. -/
def okGroup (n : Nat) (g : List String) : Prop :=
  g ≠ [] ∧ ((pyJoin " " g).length ≤ n ∨ ∃ w, g = [w])

/-- The loop invariant for the line-quality property. -/
lemma wrapGroups_fold_ok (n : Nat) (ws : List String) :
    ∀ (gs : List (List String)) (curG : List String),
      (∀ g ∈ gs, okGroup n g) → (curG = [] ∨ okGroup n curG) →
      (∀ g ∈ (List.foldl (wrapStepG n) (gs, curG) ws).1, okGroup n g)
      ∧ ((List.foldl (wrapStepG n) (gs, curG) ws).2 = []
          ∨ okGroup n (List.foldl (wrapStepG n) (gs, curG) ws).2) := by
  induction ws with
  | nil => exact fun gs curG hgs hcur => ⟨hgs, hcur⟩
  | cons w ws ih =>
    intro gs curG hgs hcur
    rw [List.foldl_cons]
    rcases List.eq_nil_or_concat curG with hG | hx
    · subst hG
      rw [wrapStepG_empty]
      exact ih gs [w] hgs (Or.inr ⟨by simp, Or.inr ⟨w, rfl⟩⟩)
    · have hGne : curG ≠ [] := by
        obtain ⟨t, x, rfl⟩ := hx
        simp
      have hcurOk : okGroup n curG := hcur.resolve_left hGne
      by_cases hlen : (pyJoin " " curG).length + w.length + 1 > n
      · rw [wrapStepG_flush n _ _ _ ⟨hlen, hGne⟩]
        refine ih (gs ++ [curG]) [w] ?_ (Or.inr ⟨by simp, Or.inr ⟨w, rfl⟩⟩)
        intro g hg
        rcases List.mem_append.mp hg with h | h
        · exact hgs g h
        · rw [List.mem_singleton.mp h]
          exact hcurOk
      · rw [wrapStepG_app n _ _ _ (by simp [hlen]) hGne]
        refine ih gs (curG ++ [w]) hgs (Or.inr ⟨by simp, Or.inl ?_⟩)
        rw [pyJoin_append_singleton " " w curG hGne]
        have h5 : (pyJoin " " curG ++ " " ++ w).length
            = (pyJoin " " curG).length + (" " : String).length + w.length := by
          simp [String.length_append]
        have h6 : (" " : String).length = 1 := rfl
        omega

/-- Every produced group is non-empty and within the limit unless it is a
single word. -/
lemma wrapGroups_ok (n : Nat) (ws : List String) :
    ∀ g ∈ wrapGroups n ws, okGroup n g := by
  unfold wrapGroups
  obtain ⟨h1, h2⟩ := wrapGroups_fold_ok n ws [] [] (by simp) (Or.inl rfl)
  by_cases hfin : (List.foldl (wrapStepG n) ([], []) ws).2 = []
  · rw [if_neg (by simp [hfin])]
    exact h1
  · rw [if_pos hfin]
    intro g hg
    rcases List.mem_append.mp hg with h | h
    · exact h1 g h
    · rw [List.mem_singleton.mp h]
      exact h2.resolve_left hfin

/-- C9: for every word list (of non-empty words, as `str.split()` produces)
and every positive limit, the greedy wrapping loop produces lines that are
exactly the space-joins of consecutive groups of the original words — no word
is ever split, dropped or reordered — each line/group is non-empty, and no
line exceeds the limit unless it consists of a single word that alone exceeds
it; and `str.split()` indeed never yields an empty word. -/
theorem C9_greedy_wrap (n : Nat) (hn : 0 < n) (ws : List String)
    (hws : ∀ w ∈ ws, w ≠ "") :
    wrapLines n ws = (wrapGroups n ws).map (pyJoin " ")
    ∧ (wrapGroups n ws).flatten = ws
    ∧ (∀ g ∈ wrapGroups n ws, g ≠ [] ∧ ((pyJoin " " g).length ≤ n ∨ ∃ w, g = [w]))
    ∧ ∀ s : String, ∀ w ∈ pySplit s, w ≠ "" := by
  refine ⟨wrapLines_eq_groups n ws hws, wrapGroups_join n ws, wrapGroups_ok n ws, ?_⟩
  intro s w hw
  unfold pySplit at hw
  exact of_decide_eq_true (List.mem_filter.mp hw).2

/-- C9 witness: the wrapping loop on a concrete word list at limit 5. -/
theorem C9_greedy_wrap_witness :
    wrapLines 5 ["ab", "cd", "efghijk", "z"]
      = (wrapGroups 5 ["ab", "cd", "efghijk", "z"]).map (pyJoin " ")
    ∧ (wrapGroups 5 ["ab", "cd", "efghijk", "z"]).flatten = ["ab", "cd", "efghijk", "z"]
    ∧ wrapLines 5 ["ab", "cd", "efghijk", "z"] = ["ab cd", "efghijk", "z"] :=
  ⟨(C9_greedy_wrap 5 (by decide) ["ab", "cd", "efghijk", "z"] (by decide)).1,
   (C9_greedy_wrap 5 (by decide) ["ab", "cd", "efghijk", "z"] (by decide)).2.1, rfl⟩

/-! ## C6 — delete and list -/

lemma string_append_left_cancel {a b c : String} (h : a ++ b = a ++ c) : b = c := by
  have hd := congrArg String.data h
  simp only [String.data_append] at hd
  have := List.append_cancel_left hd
  cases b
  cases c
  exact congrArg String.mk this

/-- The per-id artifact names are pairwise distinct when the extensions are. -/
lemma names_nodup (tid : String) (exts : List String) (h : exts.Nodup) :
    (exts.map (fun e => tid ++ "." ++ e)).Nodup := by
  exact h.map fun e1 e2 he => string_append_left_cancel he

/-- One deletion-loop step in closed form. -/
lemma removeStep_eq (tid : String) (files d : List String) (e : String) :
    removeStep tid (files, d) e
      = (files.filter (fun f => f ≠ tid ++ "." ++ e),
         d ++ if (tid ++ "." ++ e) ∈ files then [tid ++ "." ++ e] else []) := by
  unfold removeStep
  by_cases h : (tid ++ "." ++ e) ∈ files
  · rw [if_pos h, if_pos h]
  · rw [if_neg h, if_neg h, List.append_nil]
    rw [List.filter_eq_self.mpr]
    intro f hf
    exact decide_eq_true (fun heq => h (heq ▸ hf))

/-- The whole deletion loop: the directory loses exactly the id-stem names of
the extension list that were present, and reports exactly those, in extension
order. -/
lemma removeFold (tid : String) (exts : List String) :
    ∀ (files d : List String),
      (exts.map (fun e => tid ++ "." ++ e)).Nodup →
      (exts.foldl (removeStep tid) (files, d)).1
          = files.filter (fun f => f ∉ exts.map (fun e => tid ++ "." ++ e))
      ∧ (exts.foldl (removeStep tid) (files, d)).2
          = d ++ (exts.map (fun e => tid ++ "." ++ e)).filter (fun m => m ∈ files) := by
  induction exts with
  | nil =>
    intro files d _
    constructor
    · simp
    · simp
  | cons e es ih =>
    intro files d hnd
    rw [List.map_cons, List.nodup_cons] at hnd
    rw [List.foldl_cons, removeStep_eq]
    obtain ⟨hm1, hm2⟩ := ih (files.filter (fun f => f ≠ tid ++ "." ++ e))
      (d ++ if (tid ++ "." ++ e) ∈ files then [tid ++ "." ++ e] else []) hnd.2
    constructor
    · rw [hm1, List.filter_filter]
      apply List.filter_congr
      intro f hf
      by_cases h1 : f = tid ++ "." ++ e <;>
        by_cases h2 : f ∈ es.map (fun e => tid ++ "." ++ e) <;>
          simp [h1, h2]
    · rw [hm2]
      have hfc : (es.map (fun e => tid ++ "." ++ e)).filter
            (fun m => m ∈ files.filter (fun f => f ≠ tid ++ "." ++ e))
          = (es.map (fun e => tid ++ "." ++ e)).filter (fun m => m ∈ files) := by
        apply List.filter_congr
        intro m hm
        have hmne : m ≠ tid ++ "." ++ e := fun hc => hnd.1 (hc ▸ hm)
        simp [List.mem_filter, hmne]
      rw [hfc, List.append_assoc]
      congr 1
      rw [List.map_cons, List.filter_cons]
      by_cases h : (tid ++ "." ++ e) ∈ files
      · simp [h]
      · simp [h]

lemma lastIdxOf_eq_none {c : Char} {l : List Char} (h : c ∉ l) : lastIdxOf c l = none := by
  induction l with
  | nil => rfl
  | cons a as ih =>
    have ha : a ≠ c := fun hc => h (by simp [hc])
    unfold lastIdxOf
    rw [ih (fun hm => h (by simp [hm])), if_neg ha]

lemma lastIdxOf_append_cons {c : Char} {xs ys : List Char} (hx : c ∉ xs) (hy : c ∉ ys) :
    lastIdxOf c (xs ++ c :: ys) = some xs.length := by
  induction xs with
  | nil =>
    rw [List.nil_append]
    simp only [lastIdxOf]
    rw [lastIdxOf_eq_none hy]
    simp
  | cons a as ih =>
    show (match lastIdxOf c (as ++ c :: ys) with
      | some i => some (i + 1)
      | none => if a = c then some 0 else none) = some (a :: as).length
    rw [ih (fun hm => hx (by simp [hm]))]
    rfl

/-- `os.path.splitext` of a well-shaped artifact name `id.ext` recovers the
id, when the id is non-empty and free of dots and slashes. -/
lemma splitextStem_shape (id ext : String) (hid0 : id ≠ "")
    (hid : ∀ c ∈ id.data, c ≠ '.' ∧ c ≠ '/')
    (hext : ∀ c ∈ ext.data, c ≠ '.' ∧ c ≠ '/') :
    splitextStem (id ++ "." ++ ext) = id := by
  have hdata : (id ++ "." ++ ext).data = id.data ++ '.' :: ext.data := by
    simp [String.data_append]
  have hdotid : '.' ∉ id.data := fun hm => (hid _ hm).1 rfl
  have hdotext : '.' ∉ ext.data := fun hm => (hext _ hm).1 rfl
  have hdIdx : lastIdxOf '.' (id.data ++ '.' :: ext.data) = some id.data.length :=
    lastIdxOf_append_cons hdotid hdotext
  have hsIdx : lastIdxOf '/' (id.data ++ '.' :: ext.data) = none := by
    apply lastIdxOf_eq_none
    intro hm
    rcases List.mem_append.mp hm with h | h
    · exact (hid _ h).2 rfl
    · rcases List.mem_cons.mp h with h | h
      · exact absurd h (by decide)
      · exact (hext _ h).2 rfl
  have hdne : id.data ≠ [] := fun hc => hid0 (congrArg String.mk hc)
  have hany : hasNonDotBetween (id.data ++ '.' :: ext.data) 0 id.data.length = true := by
    unfold hasNonDotBetween
    rw [List.drop_zero, Nat.sub_zero, List.take_left]
    rcases List.exists_mem_of_ne_nil id.data hdne with ⟨c0, hc0⟩
    exact List.any_eq_true.mpr ⟨c0, hc0, decide_eq_true (hid _ hc0).1⟩
  have hidx : splitextIdx (id.data ++ '.' :: ext.data) = some id.data.length := by
    unfold splitextIdx
    rw [hdIdx, hsIdx]
    dsimp only
    rw [if_pos hany]
  unfold splitextStem
  rw [hdata, hidx]
  dsimp only
  rw [List.take_left]

/-- C6: deleting an id with no persisted JSON record yields the 404
not-found error; deleting an id whose record exists removes exactly the
`id.ext` artifacts of the known extension sets from the results and uploads
directories, reports exactly which files were removed (in sweep order), a
second delete of the same id yields the 404 error, and a subsequent listing
no longer contains the id (given that the `.json` files in the results
directory are well-shaped `uuid.json` records, as the system writes them). -/
theorem C6_delete_semantics (resultFiles uploadFiles : List String) (tid : String) :
    ((tid ++ ".json") ∉ resultFiles →
      delete_task resultFiles uploadFiles tid = .error (404, "任务不存在"))
    ∧ ((tid ++ ".json") ∈ resultFiles →
        delete_task resultFiles uploadFiles tid
          = .ok ((RESULT_DELETE_EXTS.map (fun e => tid ++ "." ++ e)).filter
                    (fun m => m ∈ resultFiles)
                  ++ (ALLOWED_EXTENSIONS.map (fun e => tid ++ "." ++ e)).filter
                    (fun m => m ∈ uploadFiles),
                resultFiles.filter
                  (fun f => f ∉ RESULT_DELETE_EXTS.map (fun e => tid ++ "." ++ e)),
                uploadFiles.filter
                  (fun f => f ∉ ALLOWED_EXTENSIONS.map (fun e => tid ++ "." ++ e)))
        ∧ (∀ e ∈ RESULT_DELETE_EXTS, (tid ++ "." ++ e)
            ∉ resultFiles.filter
                (fun f => f ∉ RESULT_DELETE_EXTS.map (fun e => tid ++ "." ++ e)))
        ∧ (∀ e ∈ ALLOWED_EXTENSIONS, (tid ++ "." ++ e)
            ∉ uploadFiles.filter
                (fun f => f ∉ ALLOWED_EXTENSIONS.map (fun e => tid ++ "." ++ e)))
        ∧ delete_task
            (resultFiles.filter
              (fun f => f ∉ RESULT_DELETE_EXTS.map (fun e => tid ++ "." ++ e)))
            (uploadFiles.filter
              (fun f => f ∉ ALLOWED_EXTENSIONS.map (fun e => tid ++ "." ++ e)))
            tid = .error (404, "任务不存在")
        ∧ ((∀ f ∈ resultFiles, pyEndsWith f ".json" = true →
              ∃ id, f = id ++ ".json" ∧ id ≠ "" ∧ ∀ c ∈ id.data, c ≠ '.' ∧ c ≠ '/') →
            tid ∉ listTaskIds
              (resultFiles.filter
                (fun f => f ∉ RESULT_DELETE_EXTS.map (fun e => tid ++ "." ++ e))))) := by
  have hjson : (tid ++ ".json") ∈ RESULT_DELETE_EXTS.map (fun e => tid ++ "." ++ e) := by
    refine List.mem_map.mpr ⟨"json", by decide, ?_⟩
    rw [String.append_assoc]
    exact congrArg (fun s => tid ++ s) (by decide)
  have hnotr : ∀ L : List String, (tid ++ ".json")
      ∉ L.filter (fun f => f ∉ RESULT_DELETE_EXTS.map (fun e => tid ++ "." ++ e)) := by
    intro L hmem
    have := List.mem_filter.mp hmem
    exact absurd hjson (by simpa using this.2)
  refine ⟨fun hno => by unfold delete_task; rw [if_neg hno], fun hyes => ?_⟩
  obtain ⟨hr1, hr2⟩ := removeFold tid RESULT_DELETE_EXTS resultFiles []
    (names_nodup tid RESULT_DELETE_EXTS (by decide))
  refine ⟨?_, ?_, ?_, ?_, ?_⟩
  · unfold delete_task
    rw [if_pos hyes]
    dsimp only
    obtain ⟨hu1, hu2⟩ := removeFold tid ALLOWED_EXTENSIONS uploadFiles
      (RESULT_DELETE_EXTS.foldl (removeStep tid) (resultFiles, [])).2
      (names_nodup tid ALLOWED_EXTENSIONS (by decide))
    rw [hu2, hu1, hr1, hr2, List.nil_append]
  · intro e he hmem
    have := List.mem_filter.mp hmem
    exact absurd (List.mem_map.mpr ⟨e, he, rfl⟩) (by simpa using this.2)
  · intro e he hmem
    have := List.mem_filter.mp hmem
    exact absurd (List.mem_map.mpr ⟨e, he, rfl⟩) (by simpa using this.2)
  · unfold delete_task
    rw [if_neg (hnotr resultFiles)]
  · intro hshape hmem
    unfold listTaskIds at hmem
    obtain ⟨f, hf, hstem⟩ := List.mem_map.mp hmem
    have hfr := List.mem_filter.mp hf
    have hfrr := List.mem_filter.mp hfr.1
    obtain ⟨id, hfid, hid0, hidc⟩ := hshape f hfrr.1 (by simpa using hfr.2)
    have happ : id ++ "." ++ "json" = id ++ ".json" := by
      rw [String.append_assoc]
      exact congrArg (fun s => id ++ s) (by decide)
    have : splitextStem f = id := by
      rw [hfid, ← happ]
      exact splitextStem_shape id "json" hid0 hidc (by decide)
    rw [this] at hstem
    subst hstem
    rw [hfid] at hfrr
    exact absurd hjson (by simpa using hfrr.2)

/-- C6 witness: a concrete registry with records for `t` and `x`. -/
theorem C6_delete_semantics_witness :
    delete_task ["t.json", "t.srt", "x.json"] ["t.mp4"] "t"
      = .ok (["t.json", "t.srt", "t.mp4"], ["x.json"], [])
    ∧ delete_task ["x.json"] [] "t" = .error (404, "任务不存在")
    ∧ "t" ∉ listTaskIds ["x.json"] := by
  have h := (C6_delete_semantics ["t.json", "t.srt", "x.json"] ["t.mp4"] "t").2 (by decide)
  refine ⟨?_, ?_, ?_⟩
  · have h1 := h.1
    rw [h1]
    rfl
  · have h4 := h.2.2.2.1
    rw [show (["t.json", "t.srt", "x.json"].filter
        (fun f => f ∉ RESULT_DELETE_EXTS.map (fun e => "t" ++ "." ++ e))) = ["x.json"] from rfl,
      show (["t.mp4"].filter
        (fun f => f ∉ ALLOWED_EXTENSIONS.map (fun e => "t" ++ "." ++ e))) = [] from rfl] at h4
    exact h4
  · have h5 := h.2.2.2.2 (by
      intro f hf hj
      rcases List.mem_cons.mp hf with h | h
      · exact ⟨"t", by rw [h]; decide, by decide, by decide⟩
      · rcases List.mem_cons.mp h with h | h
        · rw [h] at hj
          exact absurd hj (by decide)
        · have hx : f = "x.json" := by simpa using h
          exact ⟨"x", by rw [hx]; decide, by decide, by decide⟩)
    rw [show (["t.json", "t.srt", "x.json"].filter
        (fun f => f ∉ RESULT_DELETE_EXTS.map (fun e => "t" ++ "." ++ e))) = ["x.json"] from rfl] at h5
    exact h5

end WhisperSrt
